import Mathlib

/-!
# node-red-contrib-lftp: the `lftp-command` node (`src/lftp.js`)

A shallow embedding of the input handler of `LftpCommandNode` and of the
callbacks it registers, followed by theorems about it.

Conventions of the embedding.

* JavaScript values carried by node configurations and messages are `JSVal`
  (primitives and `Error` objects) and `Payload` (a primitive, an array, a plain
  object, or an array of plain objects).  Numbers are integers.
* The collaborators the handler calls (`new FTPS(..)` and `exec`, `tmp.file`,
  `fs.writeFile`, `Parser.parseEntries`, `JSON.stringify`, `new Date()`,
  `utils.addTrailingSlash`) are the fields of `Env`: each field is what that call
  answers in the run under consideration.
* A run of the handler is the ordered list of `Effect`s it causes: what it
  reports to the host (`node.status`, `node.error`, `node.send`), what it asks of
  its collaborators, and what escapes from a callback that the host's event loop
  invoked after the handler had returned (`Effect.uncaught`).
-/

namespace Lftp

/-! ## JavaScript values -/

/-- A JavaScript primitive value, or an `Error` object with its message. -/
inductive JSVal where
  | undefined
  | null
  | bool (b : Bool)
  | num (n : Int)
  | str (s : String)
  | error (message : String)
  deriving DecidableEq, Repr

/-- The value of `msg.payload`, and of the payload of an outbound message. -/
inductive Payload where
  | prim (v : JSVal)
  | arr (items : List JSVal)
  | obj (fields : List (String × JSVal))
  | objs (entries : List (List (String × JSVal)))
  deriving DecidableEq, Repr

/-- JavaScript `ToBoolean`. -/
def truthy : JSVal → Bool
  | .undefined => false
  | .null => false
  | .bool b => b
  | .num n => n != 0
  | .str s => s != ""
  | .error _ => true

/-- The operator `a || b` once both operands are evaluated. -/
def jsOr (a b : JSVal) : JSVal := if truthy a then a else b

/-- The decimal digit `d` as a character. -/
def digitChar (d : Nat) : Char := Char.ofNat (48 + d)

/-- Decimal digits of `n`, most significant first, in front of `acc`. -/
def decimalAux : Nat → Nat → List Char → List Char
  | 0, _, acc => acc
  | fuel + 1, n, acc =>
    if n < 10 then digitChar n :: acc
    else decimalAux fuel (n / 10) (digitChar (n % 10) :: acc)

/-- Decimal digits of a natural number. -/
def natDigits (n : Nat) : List Char := decimalAux (n + 1) n []

/-- `Number.prototype.toString()` on an integer: `d.getTime().toString()`. -/
def numberToString (n : Int) : String :=
  match n with
  | .ofNat m => String.mk (natDigits m)
  | .negSucc m => String.mk ('-' :: natDigits (m + 1))

/-- JavaScript `ToString` on the values of `JSVal`. -/
def jsToString : JSVal → String
  | .undefined => "undefined"
  | .null => "null"
  | .bool true => "true"
  | .bool false => "false"
  | .num n => numberToString n
  | .str s => s
  | .error m => if m = "" then "Error" else "Error: " ++ m

/-- The operator `s + v` whose left operand is a string: concatenation with
`ToString v`. -/
def strPlus (s : String) (v : JSVal) : String := s ++ jsToString v

/-- The comparison `v == ""` (abstract equality with the empty string). -/
def looseEqEmpty : JSVal → Bool
  | .undefined => false
  | .null => false
  | .bool b => !b
  | .num n => n == 0
  | .str s => s == ""
  | .error _ => false

/-- The `TypeError` of reading a property of `undefined` or `null`. -/
def typeError (key : String) : JSVal :=
  .error ("TypeError: Cannot read property " ++ key ++ " of undefined")

/-- Lookup of an own property in a plain object. -/
def lookupField (fields : List (String × JSVal)) (key : String) : JSVal :=
  match fields.lookup key with
  | some v => v
  | none => .undefined

/-- Property read `v.key` on a primitive, for the keys the handler reads
(`filename`, `targetFilename`, `filedata`, `length`): `undefined` and `null`
throw, a string has a `length`, nothing else has any of them. The handler only
tests the length of a string for being zero. -/
def getPropVal (v : JSVal) (key : String) : Except JSVal JSVal :=
  match v with
  | .undefined => .error (typeError key)
  | .null => .error (typeError key)
  | .str s => .ok (if key = "length" then .num s.length else .undefined)
  | _ => .ok .undefined

/-- Property read `p.key` on a payload, for the keys the handler reads. -/
def getProp (p : Payload) (key : String) : Except JSVal JSVal :=
  match p with
  | .prim v => getPropVal v key
  | .arr items => .ok (if key = "length" then .num items.length else .undefined)
  | .obj fields => .ok (lookupField fields key)
  | .objs entries => .ok (if key = "length" then .num entries.length else .undefined)

/-! ## Nodes, messages and the handler's collaborators -/

/-- The configuration object `n` handed to the constructors by the host. -/
structure NodeConfig where
  server : JSVal := .undefined
  operation : JSVal := .undefined
  filename : JSVal := .undefined
  localFilename : JSVal := .undefined
  workdir : JSVal := .undefined
  savedir : JSVal := .undefined
  targetFilename : JSVal := .undefined
  fileExtension : JSVal := .undefined
  deriving DecidableEq, Repr

/-- An `lftp-config` node as the command node sees it: its `options`. -/
structure ConfigNode where
  options : List (String × JSVal) := []
  deriving DecidableEq, Repr

/-- The properties of an `lftp-command` node that the input handler reads.
`targetFilename` and `fileExtension` are read by the handler and are assigned
nowhere. -/
structure CommandNode where
  server : JSVal
  operation : JSVal
  filename : JSVal
  localFilename : JSVal
  workdir : JSVal
  savedir : JSVal
  serverConfig : Option ConfigNode
  targetFilename : JSVal
  fileExtension : JSVal
  deriving DecidableEq, Repr

/-- The constructor `LftpCommandNode(n)` (lines 48-57); `getNode` is
`RED.nodes.getNode`. -/
def LftpCommandNode (getNode : JSVal → Option ConfigNode) (n : NodeConfig) : CommandNode :=
  { server := n.server
    operation := n.operation
    filename := n.filename
    localFilename := n.localFilename
    workdir := n.workdir
    savedir := n.savedir
    serverConfig := getNode n.server
    targetFilename := .undefined
    fileExtension := .undefined }

/-- A message of the flow: the properties the handler reads or writes, and the
others, which it leaves alone. An absent property is `undefined`. -/
structure Msg where
  workdir : JSVal := .undefined
  savedir : JSVal := .undefined
  localFilename : JSVal := .undefined
  payload : Payload := .prim .undefined
  others : List (String × JSVal) := []
  deriving DecidableEq, Repr

/-- The object `event` built by the handler (lines 71-77). -/
structure Event where
  workdir : JSVal
  filename : JSVal
  targetFilename : JSVal
  savedir : JSVal
  localFilename : JSVal
  fileExtension : JSVal := .undefined
  deriving DecidableEq, Repr

/-- The arguments `(err, res)` of an `exec` callback; `error` and `data` are
`res.error` and `res.data`. -/
structure Response where
  err : JSVal := .null
  error : JSVal := .null
  data : JSVal := .undefined
  deriving DecidableEq, Repr

/-- What the collaborators answer in one run of the handler. -/
structure Env where
  /-- The reading `new Date().getTime()`. -/
  now : Int
  /-- The helper `utils.addTrailingSlash`: it returns a string or throws. -/
  addTrailingSlash : JSVal → Except JSVal String
  /-- The builtin `JSON.stringify`. -/
  stringify : Payload → JSVal
  /-- The `data` that `Parser.parseEntries` hands to its callback. -/
  parseEntries : JSVal → Payload
  /-- The session `new FTPS(options)`: the constructor throws, or `exec` calls
  back once with a response. -/
  ftps : Except JSVal Response
  /-- The callback arguments of `tmp.file`: an error, or the path of the file. -/
  tmpFile : Except JSVal String
  /-- The exception `fs.writeFile` throws at once on a `data` argument it does
  not take, if it throws one. -/
  writeFileThrows : JSVal → Option JSVal
  /-- The callback argument of `fs.writeFile`: an error, or none. -/
  writeFile : Option JSVal

/-- The three statuses of the node. -/
inductive Status where
  | active
  | error
  | blank
  deriving DecidableEq, Repr

/-- A command queued on an `FTPS` session. -/
inductive Cmd where
  | cd (dir : JSVal)
  | ls
  | cat (path : String)
  | put (localPath remotePath : String)
  | rm (path : String)
  | mv (source target : String)
  | raw (command : Payload)
  deriving DecidableEq, Repr

/-- What a run of the handler causes, in order. -/
inductive Effect where
  /-- The call `node.status(s)`. -/
  | status (s : Status)
  /-- The call `node.error(message, msg)`. -/
  | nodeError (message : JSVal) (msg : Msg)
  /-- The call `node.send(msg)`. -/
  | send (msg : Msg)
  /-- The call `exec` on a session on which `cmds` were queued. -/
  | exec (cmds : List Cmd)
  /-- The call `tmp.file(..)`. -/
  | tmpFile
  /-- The call `fs.writeFile(path, filedata, ..)`. -/
  | writeFile (path : String) (filedata : JSVal)
  /-- The call `cleanupCallback()`. -/
  | cleanup
  /-- An exception leaving a callback that the event loop invoked. -/
  | uncaught (e : JSVal)
  deriving DecidableEq, Repr

/-- The outbound messages of a run. -/
def sends : List Effect → List Msg
  | [] => []
  | .send m :: rest => m :: sends rest
  | _ :: rest => sends rest

/-- The error signals of a run: message and tagged trigger. -/
def errors : List Effect → List (JSVal × Msg)
  | [] => []
  | .nodeError e m :: rest => (e, m) :: errors rest
  | _ :: rest => errors rest

/-- The command sequences executed on sessions in a run. -/
def execs : List Effect → List (List Cmd)
  | [] => []
  | .exec cmds :: rest => cmds :: execs rest
  | _ :: rest => execs rest

/-- The number of calls of the temp file's cleanup in a run. -/
def cleanups : List Effect → Nat
  | [] => 0
  | .cleanup :: rest => cleanups rest + 1
  | _ :: rest => cleanups rest

/-- The exceptions that reached the host in a run. -/
def uncaughts : List Effect → List JSVal
  | [] => []
  | .uncaught e :: rest => e :: uncaughts rest
  | _ :: rest => uncaughts rest

/-! ## The input handler -/

/-- An operand chain `configured || msg.payload.key || ""`: the property of the
payload is read only when the configured value is falsy. -/
def orPayloadProp (configured : JSVal) (p : Payload) (key : String) : Except JSVal JSVal :=
  if truthy configured then .ok configured
  else
    match getProp p key with
    | .error e => .error e
    | .ok v => .ok (jsOr v (.str ""))

/-- Lines 71-77: the fields of `event`, or the exception thrown while reading
`msg.payload`. -/
def computeEvent (node : CommandNode) (msg : Msg) : Except JSVal Event :=
  let workdir := jsOr (jsOr node.workdir msg.workdir) (.str "")
  match orPayloadProp node.filename msg.payload "filename" with
  | .error e => .error e
  | .ok filename =>
    match orPayloadProp node.targetFilename msg.payload "targetFilename" with
    | .error e => .error e
    | .ok targetFilename =>
      .ok { workdir := workdir
            filename := filename
            targetFilename := targetFilename
            savedir := jsOr (jsOr node.savedir msg.savedir) (.str "")
            localFilename := jsOr (jsOr node.localFilename msg.localFilename) (.str "") }

/-- Lines 89-98: `responseErrorHandler(err, res)`, its result and what it
causes. -/
def responseErrorHandler (msg : Msg) (r : Response) : Bool × List Effect :=
  let message := jsOr r.err r.error
  if truthy message then (true, [.nodeError message msg, .status .blank])
  else (false, [])

/-- The shape `if (!responseErrorHandler(err, res)) {..}` of every `exec`
callback: `success` is what the braces cause. -/
def onResponse (msg : Msg) (r : Response) (success : List Effect) : List Effect :=
  let handled := responseErrorHandler msg r
  if handled.1 then handled.2 else handled.2 ++ success

/-- Lines 240-243: the handler's `catch` block. -/
def catchBlock (msg : Msg) (e : JSVal) : List Effect :=
  [.nodeError e msg, .status .blank]

/-- The expression `new FTPS(node.serverConfig.options)`: reading `options` of
an absent configuration node throws, and so may the constructor. -/
def newFTPS (env : Env) (node : CommandNode) : Except JSVal Response :=
  match node.serverConfig with
  | none => .error (typeError "options")
  | some _ => env.ftps

/-- The path `utils.addTrailingSlash(event.workdir) + name`. -/
def remotePath (env : Env) (event : Event) (name : JSVal) : Except JSVal String :=
  match env.addTrailingSlash event.workdir with
  | .error e => .error e
  | .ok dir => .ok (strPlus dir name)

/-- Lines 101-117: `case "list"`. -/
def opList (env : Env) (node : CommandNode) (msg : Msg) (event : Event) : List Effect :=
  match newFTPS env node with
  | .error e => catchBlock msg e
  | .ok r =>
    .exec [.cd event.workdir, .ls] ::
      onResponse msg r
        [.send { msg with workdir := event.workdir, payload := env.parseEntries r.data },
         .status .blank]

/-- Lines 118-136: `case "get"`. -/
def opGet (env : Env) (node : CommandNode) (msg : Msg) (event : Event) : List Effect :=
  match remotePath env event event.filename with
  | .error e => catchBlock msg e
  | .ok filename =>
    match newFTPS env node with
    | .error e => catchBlock msg e
    | .ok r =>
      .exec [.cat filename] ::
        onResponse msg r
          [.send { msg with
                    workdir := event.workdir
                    payload := .obj [("filedata", r.data), ("filename", event.filename),
                                     ("filepath", .str filename)] },
           .status .blank]

/-- The number a boolean is compared as by `>`. -/
def boolToNumber (b : Bool) : Int := if b then 1 else 0

/-- Lines 138-147: the block of `case "put"` that names a file without a name.
The condition is `!event.filename.length > 0`. -/
def putFilename (env : Env) (node : CommandNode) (event : Event) : Except JSVal Event :=
  match getPropVal event.filename "length" with
  | .error e => .error e
  | .ok len =>
    if boolToNumber (!truthy len) > 0 then
      let guid := numberToString env.now
      let event1 :=
        if looseEqEmpty event.fileExtension then { event with fileExtension := .str ".txt" }
        else event
      .ok { event1 with filename := .str (strPlus guid node.fileExtension) }
    else .ok event

/-- Lines 168-179: the callback of `conn.put(path, filename).exec`. -/
def putExecCallback (msg : Msg) (event : Event) (filename : String) (r : Response) :
    List Effect :=
  .cleanup ::
    onResponse msg r
      [.send { msg with
                workdir := event.workdir
                payload := .obj [("filename", event.filename), ("filepath", .str filename)] },
       .status .blank]

/-- Lines 161-180: the callback of `fs.writeFile`, run by the event loop. -/
def putWriteCallback (env : Env) (node : CommandNode) (msg : Msg) (event : Event)
    (filename path : String) : List Effect :=
  match env.writeFile with
  | some err => [.cleanup, .uncaught err]
  | none =>
    match newFTPS env node with
    | .error e => [.uncaught e]
    | .ok r => .exec [.put path filename] :: putExecCallback msg event filename r

/-- Lines 158-181: the callback of `tmp.file`, run by the event loop. The call
of `fs.writeFile` either throws at once, inside this callback, or takes the data
and calls back later. -/
def putTmpCallback (env : Env) (node : CommandNode) (msg : Msg) (event : Event)
    (filename : String) (filedata : JSVal) : List Effect :=
  match env.tmpFile with
  | .error err => [.uncaught err]
  | .ok path =>
    match env.writeFileThrows filedata with
    | some e => [.uncaught e]
    | none => .writeFile path filedata :: putWriteCallback env node msg event filename path

/-- Lines 151-152: `msg.payload.filedata || JSON.stringify(msg.payload)`. -/
def putFiledata (env : Env) (msg : Msg) : Except JSVal JSVal :=
  match getProp msg.payload "filedata" with
  | .error e => .error e
  | .ok fd => .ok (if truthy fd then fd else env.stringify msg.payload)

/-- Lines 137-182: `case "put"`. -/
def opPut (env : Env) (node : CommandNode) (msg : Msg) (event : Event) : List Effect :=
  match putFilename env node event with
  | .error e => catchBlock msg e
  | .ok event1 =>
    match remotePath env event1 event1.filename with
    | .error e => catchBlock msg e
    | .ok filename =>
      match putFiledata env msg with
      | .error e => catchBlock msg e
      | .ok filedata => .tmpFile :: putTmpCallback env node msg event1 filename filedata

/-- Lines 183-200: `case "delete"`. -/
def opDelete (env : Env) (node : CommandNode) (msg : Msg) (event : Event) : List Effect :=
  match remotePath env event event.filename with
  | .error e => catchBlock msg e
  | .ok filename =>
    match newFTPS env node with
    | .error e => catchBlock msg e
    | .ok r =>
      .exec [.rm filename] ::
        onResponse msg r
          [.send { msg with
                    workdir := event.workdir
                    payload := .obj [("filename", event.filename), ("filepath", .str filename)] },
           .status .blank]

/-- Lines 201-220: `case "move"`. -/
def opMove (env : Env) (node : CommandNode) (msg : Msg) (event : Event) : List Effect :=
  match remotePath env event event.filename with
  | .error e => catchBlock msg e
  | .ok filename =>
    match remotePath env event event.targetFilename with
    | .error e => catchBlock msg e
    | .ok targetFilename =>
      match newFTPS env node with
      | .error e => catchBlock msg e
      | .ok r =>
        .exec [.mv filename targetFilename] ::
          onResponse msg r
            [.send { msg with
                      workdir := event.workdir
                      payload := .obj [("filename", event.targetFilename),
                                       ("filepath", .str targetFilename)] },
             .status .blank]

/-- Lines 223-229: the commands `case "raw"` queues, one `conn.raw` call each. -/
def rawCommands : Payload → List Cmd
  | .arr items => items.map (fun c => Cmd.raw (.prim c))
  | .objs entries => entries.map (fun c => Cmd.raw (.obj c))
  | p => [.raw p]

/-- Lines 221-238: `case "raw"`. -/
def opRaw (env : Env) (node : CommandNode) (msg : Msg) : List Effect :=
  match newFTPS env node with
  | .error e => catchBlock msg e
  | .ok r =>
    .exec (rawCommands msg.payload) ::
      onResponse msg r [.send { msg with payload := .prim r.data }, .status .blank]

/-- Lines 100-239: the `switch` on `node.operation`; no case, no effect. -/
def switchOperation (env : Env) (node : CommandNode) (msg : Msg) (event : Event) :
    List Effect :=
  if node.operation = .str "list" then opList env node msg event
  else if node.operation = .str "get" then opGet env node msg event
  else if node.operation = .str "put" then opPut env node msg event
  else if node.operation = .str "delete" then opDelete env node msg event
  else if node.operation = .str "move" then opMove env node msg event
  else if node.operation = .str "raw" then opRaw env node msg
  else []

/-- Lines 69-244: the listener of `input`, which the constructor registers when
`server` is truthy, with the callbacks it leaves to the event loop run to their
end. -/
def onInput (env : Env) (node : CommandNode) (msg : Msg) : List Effect :=
  match computeEvent node msg with
  | .error e => catchBlock msg e
  | .ok event => .status .active :: switchOperation env node msg event

/-! ## Path resolution -/

/-- Modelled from the spec: `utils.addTrailingSlash`, of the module `./utils`,
which is not among the sources. The spec's path resolver puts one separator
between a working directory and a filename whether or not the directory already
ends with one, and leaves an empty directory empty, so that
`resolve("", "a") = "a"`. -/
def addTrailingSlash (workdir : String) : String :=
  match workdir.data.getLast? with
  | none => workdir
  | some c => if c = '/' then workdir else workdir ++ "/"

/-- The path resolution of `get`, `put`, `delete` and `move`:
`utils.addTrailingSlash(W) + F`. -/
def resolve (W F : String) : String := addTrailingSlash W ++ F

/-- The helper of `./utils` as a collaborator of the handler; a value that is
not a string is taken as its string form. -/
def utilsAddTrailingSlash (v : JSVal) : Except JSVal String :=
  .ok (addTrailingSlash (jsToString v))

/-! ## Reading decimal digits back -/

/-- The digit a decimal character stands for. -/
def digitVal (c : Char) : Nat := c.toNat - 48

/-- The number a list of decimal characters stands for. -/
def ofDigits (cs : List Char) : Nat := cs.foldl (fun a c => 10 * a + digitVal c) 0

/-! ## Sample collaborators and triggers -/

/-- A configuration node for the samples. -/
def sampleServer : ConfigNode := { options := [("host", .str "localhost")] }

/-- A host in which every server reference resolves to `sampleServer`. -/
def sampleGetNode : JSVal → Option ConfigNode := fun _ => some sampleServer

/-- A stand-in for `Parser.parseEntries` in the samples: one entry for each
line of the listing, holding the line. -/
def sampleParse : JSVal → Payload
  | .str s => .objs ((s.data.splitOn '\n').map (fun line => [("name", .str (String.mk line))]))
  | _ => .objs []

/-- A stand-in for `JSON.stringify` in the samples. -/
def sampleStringify : Payload → JSVal := fun _ => .str "[json]"

/-- An `fs.writeFile` that takes strings and throws a `TypeError` on any other
value of `JSVal`. -/
def sampleWriteFileThrows : JSVal → Option JSVal
  | .str _ => none
  | _ => some (.error "TypeError: The data argument must be of type string")

/-- Collaborators of a run in which every step succeeds and the session
answers `r`. -/
def sampleEnv (r : Response) : Env :=
  { now := 1700000000000
    addTrailingSlash := utilsAddTrailingSlash
    stringify := sampleStringify
    parseEntries := sampleParse
    ftps := .ok r
    tmpFile := .ok "/tmp/tmp-1"
    writeFileThrows := sampleWriteFileThrows
    writeFile := none }

/-- A command node for `operation`, with nothing else configured. -/
def sampleNode (operation : String) : CommandNode :=
  LftpCommandNode sampleGetNode { server := .str "srv", operation := .str operation }

/-- An error-free response carrying `data`. -/
def okResponse (data : String) : Response := { err := .null, error := .null, data := .str data }

/-- A response with an application error. -/
def failedResponse : Response :=
  { err := .null, error := .str "Access failed: 550 missing.txt", data := .str "" }

/-- The trigger of the sample for the request fields: an empty payload object. -/
def fieldsMsg : Msg := { payload := .obj [] }

/-- A configuration that sets a filename and a target filename for a move. -/
def fieldsConfig : NodeConfig :=
  { server := .str "srv", operation := .str "move",
    filename := .str "a.txt", targetFilename := .str "b.txt" }

/-- A put trigger without a filename. -/
def putMsg (filedata : String) : Msg := { payload := .obj [("filedata", .str filedata)] }

/-- The event of a trigger that names no file, on a node that names none. -/
def namelessEvent : Event :=
  { workdir := .str "", filename := .str "", targetFilename := .str "",
    savedir := .str "", localFilename := .str "" }

/-- Collaborators of a put whose local write fails with `ENOSPC`. -/
def writeFailEnv : Env :=
  { sampleEnv (okResponse "") with writeFile := some (.error "ENOSPC") }

/-- The move trigger of the sample. -/
def moveMsg : Msg :=
  { workdir := .str "/d",
    payload := .obj [("filename", .str "a.txt"), ("targetFilename", .str "b.txt")] }

/-- The list trigger of the sample: a workdir and an empty payload object. -/
def listMsg : Msg := { workdir := .str "/data", payload := .obj [] }

/-- A put node whose server reference resolves to no configuration node. -/
def orphanPutNode : CommandNode :=
  LftpCommandNode (fun _ => none) { server := .str "gone", operation := .str "put" }

/-- A trigger that names the file "missing.txt". -/
def missingMsg : Msg := { payload := .obj [("filename", .str "missing.txt")] }

/-- A raw trigger with two commands. -/
def rawMsg : Msg := { payload := .arr [.str "cd /in", .str "ls"] }

/-- A put trigger with a filename and data. -/
def namedPutMsg : Msg :=
  { payload := .obj [("filename", .str "f.txt"), ("filedata", .str "x")] }

/-- A put trigger whose data is the number 42. -/
def numberPutMsg : Msg :=
  { payload := .obj [("filename", .str "f.txt"), ("filedata", .num 42)] }

/-- The move trigger that carries the two filenames beside `workdir`, outside
any payload. -/
def flatMoveMsg : Msg :=
  { workdir := .str "/d",
    others := [("filename", .str "a.txt"), ("targetFilename", .str "b.txt")] }

/-- Collaborators of a put for which no temp file can be created. -/
def tmpFailEnv : Env :=
  { sampleEnv (okResponse "") with tmpFile := .error (.error "EMFILE") }

/-- Collaborators of a second put at the same clock reading, with a temp file of
its own. -/
def secondPutEnv : Env := { sampleEnv (okResponse "") with tmpFile := .ok "/tmp/tmp-2" }

/-! ## Theorems -/

/-! ### Decimal rendering is injective -/

theorem digitVal_digitChar (d : Nat) (h : d < 10) : digitVal (digitChar d) = d := by
  interval_cases d <;> rfl

theorem digitChar_ne_minus (d : Nat) (h : d < 10) : digitChar d ≠ '-' := by
  interval_cases d <;> decide

theorem decimalAux_acc (fuel : Nat) : ∀ (n : Nat) (acc : List Char),
    decimalAux fuel n acc = decimalAux fuel n [] ++ acc := by
  induction fuel with
  | zero => intro n acc; simp [decimalAux]
  | succ k ih =>
    intro n acc
    unfold decimalAux
    by_cases h : n < 10
    · simp [h]
    · simp only [h, if_false]
      rw [ih (n / 10) (digitChar (n % 10) :: acc), ih (n / 10) [digitChar (n % 10)]]
      simp

theorem decimalAux_fuel (fuel : Nat) : ∀ n, n < fuel → decimalAux fuel n [] = natDigits n := by
  induction fuel using Nat.strong_induction_on with
  | _ fuel ih =>
    intro n hn
    cases fuel with
    | zero => omega
    | succ k =>
      unfold natDigits
      by_cases h : n < 10
      · simp [decimalAux, h]
      · have h1 : decimalAux (k + 1) n [] = decimalAux k (n / 10) [digitChar (n % 10)] := by
          simp [decimalAux, h]
        have h2 : decimalAux (n + 1) n [] = decimalAux n (n / 10) [digitChar (n % 10)] := by
          simp [decimalAux, h]
        rw [h1, h2, decimalAux_acc k, decimalAux_acc n]
        have hlt : n / 10 < n := by omega
        rw [ih k (by omega) (n / 10) (by omega)]
        by_cases hk : n = k + 1
        · omega
        · rw [ih n (by omega) (n / 10) hlt]

theorem natDigits_small (n : Nat) (h : n < 10) : natDigits n = [digitChar n] := by
  simp [natDigits, decimalAux, h]

theorem natDigits_step (n : Nat) (h : ¬ n < 10) :
    natDigits n = natDigits (n / 10) ++ [digitChar (n % 10)] := by
  have h2 : natDigits n = decimalAux n (n / 10) [digitChar (n % 10)] := by
    simp [natDigits, decimalAux, h]
  rw [h2, decimalAux_acc, decimalAux_fuel n (n / 10) (by omega)]

theorem ofDigits_natDigits (n : Nat) : ofDigits (natDigits n) = n := by
  induction n using Nat.strong_induction_on with
  | _ n ih =>
    by_cases h : n < 10
    · rw [natDigits_small n h]
      simp [ofDigits, digitVal_digitChar n h]
    · rw [natDigits_step n h]
      have := ih (n / 10) (by omega)
      unfold ofDigits at this ⊢
      rw [List.foldl_append, this]
      simp [digitVal_digitChar (n % 10) (by omega)]
      omega

theorem natDigits_injective {m n : Nat} (h : natDigits m = natDigits n) : m = n := by
  have := congrArg ofDigits h
  simpa [ofDigits_natDigits] using this

theorem natDigits_no_minus (n : Nat) : ∀ c ∈ natDigits n, c ≠ '-' := by
  induction n using Nat.strong_induction_on with
  | _ n ih =>
    by_cases h : n < 10
    · rw [natDigits_small n h]
      intro c hc
      simp at hc
      rw [hc]; exact digitChar_ne_minus n h
    · rw [natDigits_step n h]
      intro c hc
      rw [List.mem_append] at hc
      rcases hc with hc | hc
      · exact ih (n / 10) (by omega) c hc
      · simp at hc
        rw [hc]; exact digitChar_ne_minus _ (by omega)

theorem natDigits_ne_nil (n : Nat) : natDigits n ≠ [] := by
  by_cases h : n < 10
  · rw [natDigits_small n h]; simp
  · rw [natDigits_step n h]; simp

theorem numberToString_injective {a b : Int} (h : numberToString a = numberToString b) :
    a = b := by
  have hd := congrArg String.data h
  cases a with
  | ofNat m =>
    cases b with
    | ofNat k =>
      simp only [numberToString] at hd
      rw [natDigits_injective hd]
    | negSucc k =>
      simp only [numberToString] at hd
      exfalso
      exact natDigits_no_minus m '-' (by rw [hd]; simp) rfl
  | negSucc m =>
    cases b with
    | ofNat k =>
      simp only [numberToString] at hd
      exfalso
      exact natDigits_no_minus k '-' (by rw [← hd]; simp) rfl
    | negSucc k =>
      simp only [numberToString, List.cons.injEq, true_and] at hd
      have hmk : m = k := by
        have := natDigits_injective hd
        omega
      rw [hmk]


/-! ### Request fields (lines 48-57 and 71-77) -/

theorem jsOr_truthy {a : JSVal} (b : JSVal) (h : truthy a = true) : jsOr a b = a := by
  simp [jsOr, h]

theorem jsOr_falsy {a : JSVal} (b : JSVal) (h : truthy a = false) : jsOr a b = b := by
  simp [jsOr, h]

theorem computeEvent_workdir {node : CommandNode} {msg : Msg} {ev : Event}
    (h : computeEvent node msg = .ok ev) :
    ev.workdir = jsOr (jsOr node.workdir msg.workdir) (.str "") := by
  unfold computeEvent at h
  cases h1 : orPayloadProp node.filename msg.payload "filename" with
  | error e => simp [h1] at h
  | ok f =>
    cases h2 : orPayloadProp node.targetFilename msg.payload "targetFilename" with
    | error e => simp [h1, h2] at h
    | ok t =>
      simp [h1, h2] at h
      rw [← h]

theorem getProp_of_payload (p : Payload) (key : String) (hu : p ≠ .prim .undefined)
    (hn : p ≠ .prim .null) : ∃ v, getProp p key = .ok v := by
  cases p with
  | prim v =>
    cases v with
    | undefined => exact absurd rfl hu
    | null => exact absurd rfl hn
    | bool b => exact ⟨_, rfl⟩
    | num k => exact ⟨_, rfl⟩
    | str t => exact ⟨_, rfl⟩
    | error m => exact ⟨_, rfl⟩
  | arr items => exact ⟨_, rfl⟩
  | obj fields => exact ⟨_, rfl⟩
  | objs entries => exact ⟨_, rfl⟩

theorem orPayloadProp_of_payload (c : JSVal) (p : Payload) (key : String)
    (hu : p ≠ .prim .undefined) (hn : p ≠ .prim .null) : ∃ v, orPayloadProp c p key = .ok v := by
  obtain ⟨v, hv⟩ := getProp_of_payload p key hu hn
  unfold orPayloadProp
  by_cases hc : truthy c = true
  · exact ⟨c, by simp [hc]⟩
  · exact ⟨jsOr v (.str ""), by simp [hc, hv]⟩

theorem computeEvent_ok_of_payload (node : CommandNode) (msg : Msg)
    (hu : msg.payload ≠ .prim .undefined) (hn : msg.payload ≠ .prim .null) :
    ∃ ev, computeEvent node msg = .ok ev := by
  obtain ⟨f, hf⟩ := orPayloadProp_of_payload node.filename msg.payload "filename" hu hn
  obtain ⟨t, ht⟩ :=
    orPayloadProp_of_payload node.targetFilename msg.payload "targetFilename" hu hn
  simp [computeEvent, hf, ht]

/-- The fields of `event` for a node built by the constructor and a trigger with
a payload other than `undefined` and `null`: four follow the precedence
configured, trigger, empty string; the target filename comes from the trigger
alone. -/
theorem computeEvent_of_payload (getNode : JSVal → Option ConfigNode) (n : NodeConfig)
    (msg : Msg) (hu : msg.payload ≠ .prim .undefined) (hn : msg.payload ≠ .prim .null) :
    ∃ pf pt, getProp msg.payload "filename" = .ok pf ∧
      getProp msg.payload "targetFilename" = .ok pt ∧
      computeEvent (LftpCommandNode getNode n) msg =
        .ok { workdir := jsOr (jsOr n.workdir msg.workdir) (.str "")
              filename := jsOr (jsOr n.filename pf) (.str "")
              targetFilename := jsOr pt (.str "")
              savedir := jsOr (jsOr n.savedir msg.savedir) (.str "")
              localFilename := jsOr (jsOr n.localFilename msg.localFilename) (.str "") } := by
  obtain ⟨pf, hpf⟩ := getProp_of_payload msg.payload "filename" hu hn
  obtain ⟨pt, hpt⟩ := getProp_of_payload msg.payload "targetFilename" hu hn
  refine ⟨pf, pt, hpf, hpt, ?_⟩
  have htu : truthy JSVal.undefined = false := rfl
  by_cases hc : truthy n.filename = true
  · simp [computeEvent, LftpCommandNode, orPayloadProp, hpt, hc, htu, jsOr_truthy _ hc]
  · have hf : truthy n.filename = false := by simpa using hc
    simp [computeEvent, LftpCommandNode, orPayloadProp, hpf, hpt, hf, htu, jsOr_falsy _ hf]

/-- C1, at the failing input: the configuration sets `targetFilename` to
"b.txt" (and `filename` to "a.txt"), the trigger carries an empty payload
object; the handler takes the configured filename and computes the empty string
as target filename, the configured "b.txt" being copied to the node nowhere. -/
theorem computeEvent_drops_configured_targetFilename :
    fieldsConfig.targetFilename = .str "b.txt" ∧
    computeEvent (LftpCommandNode sampleGetNode fieldsConfig) fieldsMsg =
      .ok { workdir := .str "", filename := .str "a.txt", targetFilename := .str "",
            savedir := .str "", localFilename := .str "" } := by
  exact ⟨rfl, rfl⟩

/-! ### Responses (lines 89-98 and the `exec` callbacks) -/

theorem onResponse_failed (msg : Msg) (r : Response) (success : List Effect)
    (h : truthy (jsOr r.err r.error) = true) :
    onResponse msg r success = [.nodeError (jsOr r.err r.error) msg, .status .blank] := by
  simp [onResponse, responseErrorHandler, h]

theorem onResponse_passed (msg : Msg) (r : Response) (success : List Effect)
    (h : truthy (jsOr r.err r.error) = false) :
    onResponse msg r success = success := by
  simp [onResponse, responseErrorHandler, h]

theorem newFTPS_eq_ftps {env : Env} {node : CommandNode} {r : Response}
    (h : newFTPS env node = .ok r) : env.ftps = .ok r := by
  unfold newFTPS at h
  cases hc : node.serverConfig with
  | none => simp [hc] at h
  | some c => simpa [hc] using h

theorem truthy_response_passed {r : Response} (h1 : truthy r.err = false)
    (h2 : truthy r.error = false) : truthy (jsOr r.err r.error) = false := by
  rw [jsOr_falsy _ h1]; exact h2

/-! ### Generated filenames of `put` (lines 138-147) -/

theorem putFilename_nameless (env : Env) (getNode : JSVal → Option ConfigNode)
    (n : NodeConfig) (ev : Event) (h : ev.filename = .str "") :
    ∃ out, putFilename env (LftpCommandNode getNode n) ev = .ok out ∧
      out.filename = .str (numberToString env.now ++ "undefined") := by
  have hlen : getPropVal ev.filename "length" = .ok (.num 0) := by
    rw [h]; rfl
  have hcond : boolToNumber (!truthy (.num 0)) > 0 := by decide
  refine ⟨{ (if looseEqEmpty ev.fileExtension then { ev with fileExtension := .str ".txt" }
      else ev) with
      filename := .str (strPlus (numberToString env.now)
        (LftpCommandNode getNode n).fileExtension) }, ?_, ?_⟩
  · simp only [putFilename, hlen, hcond, if_true]
  · rfl

/-- C3, at the failing input and at every clock reading: a put trigger without
a filename, on a node without one. The generated filename is the decimal clock
reading followed by "undefined", the string form of `node.fileExtension`, which
is assigned nowhere; the upload goes to that name. The claim says the name ends
with ".txt". -/
theorem put_generated_filename_undefined :
    (∀ (env : Env) (getNode : JSVal → Option ConfigNode) (n : NodeConfig),
      putFilename env (LftpCommandNode getNode n) namelessEvent =
        .ok { namelessEvent with
                filename := .str (numberToString env.now ++ "undefined") }) ∧
    execs (onInput (sampleEnv (okResponse "")) (sampleNode "put") (putMsg "x")) =
      [[.put "/tmp/tmp-1" "1700000000000undefined"]] ∧
    sends (onInput (sampleEnv (okResponse "")) (sampleNode "put") (putMsg "x")) =
      [{ workdir := .str "",
         payload := .obj [("filename", .str "1700000000000undefined"),
                          ("filepath", .str "1700000000000undefined")] }] := by
  refine ⟨?_, by decide, by decide⟩
  intro env getNode n
  rfl

/-- C10, refuted as stated: two put invocations without a filename, with
different data and different temp files, that read the same clock value upload to
the same generated filename. -/
theorem put_same_clock_same_filename :
    (sampleEnv (okResponse "")).now = secondPutEnv.now ∧
    execs (onInput (sampleEnv (okResponse "")) (sampleNode "put") (putMsg "first")) =
      [[.put "/tmp/tmp-1" "1700000000000undefined"]] ∧
    execs (onInput secondPutEnv (sampleNode "put") (putMsg "second")) =
      [[.put "/tmp/tmp-2" "1700000000000undefined"]] := by
  decide

/-- C10, amended: two put invocations without a filename, on nodes built by the
constructor, generate distinct filenames whenever their clock readings differ. -/
theorem put_generated_filenames_distinct (env1 env2 : Env)
    (getNode1 getNode2 : JSVal → Option ConfigNode) (n1 n2 : NodeConfig) (ev1 ev2 : Event)
    (h1 : ev1.filename = .str "") (h2 : ev2.filename = .str "")
    (hclock : env1.now ≠ env2.now) :
    ∃ out1 out2, putFilename env1 (LftpCommandNode getNode1 n1) ev1 = .ok out1 ∧
      putFilename env2 (LftpCommandNode getNode2 n2) ev2 = .ok out2 ∧
      out1.filename ≠ out2.filename := by
  obtain ⟨out1, ho1, hf1⟩ := putFilename_nameless env1 getNode1 n1 ev1 h1
  obtain ⟨out2, ho2, hf2⟩ := putFilename_nameless env2 getNode2 n2 ev2 h2
  refine ⟨out1, out2, ho1, ho2, ?_⟩
  rw [hf1, hf2]
  intro heq
  have hs : numberToString env1.now ++ "undefined" = numberToString env2.now ++ "undefined" :=
    JSVal.str.inj heq
  have hd := congrArg String.data hs
  simp only [String.data_append] at hd
  have := List.append_cancel_right hd
  exact hclock (numberToString_injective (String.ext this))

/-- C10, amended, at the sample: clock readings one millisecond apart. -/
theorem put_generated_filenames_distinct_witness :
    ∃ out1 out2,
      putFilename (sampleEnv (okResponse "")) (LftpCommandNode sampleGetNode {}) namelessEvent
        = .ok out1 ∧
      putFilename { sampleEnv (okResponse "") with now := 1700000000001 }
        (LftpCommandNode sampleGetNode {}) namelessEvent = .ok out2 ∧
      out1.filename ≠ out2.filename :=
  put_generated_filenames_distinct (sampleEnv (okResponse ""))
    { sampleEnv (okResponse "") with now := 1700000000001 } sampleGetNode sampleGetNode {} {}
    namelessEvent namelessEvent rfl rfl (by decide)

/-! ### Exceptions in the callbacks of `put` (lines 158-166 and 240-243) -/

/-- C8, at the failing input: a put whose local write fails with `ENOSPC`. The
callback of `fs.writeFile` calls the cleanup and throws; the event loop invoked
it after the handler had returned, so the handler's `catch` block does not see
the exception: no error signal is reported and the exception reaches the host.
The same holds when `tmp.file` answers with an error. The claim says one error
signal and no escaping exception. -/
theorem put_write_failure_escapes :
    onInput writeFailEnv (sampleNode "put") (putMsg "x") =
      [.status .active, .tmpFile, .writeFile "/tmp/tmp-1" (.str "x"), .cleanup,
       .uncaught (.error "ENOSPC")] ∧
    errors (onInput writeFailEnv (sampleNode "put") (putMsg "x")) = [] ∧
    uncaughts (onInput writeFailEnv (sampleNode "put") (putMsg "x")) = [.error "ENOSPC"] ∧
    onInput tmpFailEnv (sampleNode "put") (putMsg "x") =
      [.status .active, .tmpFile, .uncaught (.error "EMFILE")] := by
  decide

/-! ### One outcome for each response (lines 89-98 and the `exec` callbacks) -/

theorem orPayloadProp_value {c : JSVal} {p : Payload} {key : String} {v : JSVal}
    (h : orPayloadProp c p key = .ok v) : truthy v = true ∨ v = .str "" := by
  unfold orPayloadProp at h
  by_cases hc : truthy c = true
  · simp [hc] at h
    subst h
    exact Or.inl hc
  · cases hg : getProp p key with
    | error e => simp [hc, hg] at h
    | ok w =>
      simp [hc, hg] at h
      subst h
      by_cases hw : truthy w = true
      · left; rw [jsOr_truthy _ hw]; exact hw
      · right; exact jsOr_falsy _ (by simpa using hw)

theorem computeEvent_filename {node : CommandNode} {msg : Msg} {ev : Event}
    (h : computeEvent node msg = .ok ev) : truthy ev.filename = true ∨ ev.filename = .str "" := by
  unfold computeEvent at h
  cases h1 : orPayloadProp node.filename msg.payload "filename" with
  | error e => simp [h1] at h
  | ok f =>
    cases h2 : orPayloadProp node.targetFilename msg.payload "targetFilename" with
    | error e => simp [h1, h2] at h
    | ok t =>
      simp [h1, h2] at h
      rw [← h]
      exact orPayloadProp_value h1

theorem putFilename_ok (env : Env) (node : CommandNode) (ev : Event)
    (h : truthy ev.filename = true ∨ ev.filename = .str "") :
    ∃ ev1, putFilename env node ev = .ok ev1 ∧ ev1.workdir = ev.workdir := by
  have hlen : ∃ len, getPropVal ev.filename "length" = .ok len := by
    rcases h with h | h
    · cases hv : ev.filename with
      | undefined => rw [hv] at h; exact absurd h (by decide)
      | null => rw [hv] at h; exact absurd h (by decide)
      | bool b => exact ⟨_, rfl⟩
      | num k => exact ⟨_, rfl⟩
      | str t => exact ⟨_, rfl⟩
      | error m => exact ⟨_, rfl⟩
    · rw [h]; exact ⟨_, rfl⟩
  obtain ⟨len, hl⟩ := hlen
  unfold putFilename
  rw [hl]
  by_cases hc : boolToNumber (!truthy len) > 0
  · by_cases hx : looseEqEmpty ev.fileExtension = true <;> simp [hc, hx]
  · simp [hc]

/-- C2: for `get`, `put`, `delete`, `move` and `raw`, on a trigger with a
payload other than `undefined` and `null`, when `utils.addTrailingSlash` returns
for the request's workdir (all but `raw`), the session is built and answers
`(err, res)`, and, for `put`, the temp file is created and the local write takes
the data and succeeds: exactly one command sequence is executed; when
`err || res.error` is truthy nothing is sent and exactly one error signal is
reported, carrying that value and the trigger message; otherwise exactly one
message is sent and no error signal is reported. In neither case does an
exception reach the host. -/
theorem exec_response_uniform (env : Env) (node : CommandNode) (msg : Msg) (r : Response)
    (hop : node.operation = .str "get" ∨ node.operation = .str "put" ∨
      node.operation = .str "delete" ∨ node.operation = .str "move" ∨
      node.operation = .str "raw")
    (hu : msg.payload ≠ .prim .undefined) (hn : msg.payload ≠ .prim .null)
    (hhelper : node.operation ≠ .str "raw" →
      ∃ P, env.addTrailingSlash (jsOr (jsOr node.workdir msg.workdir) (.str "")) = .ok P)
    (hs : newFTPS env node = .ok r)
    (hput : node.operation = .str "put" →
      (∃ path, env.tmpFile = .ok path) ∧ env.writeFile = none ∧
      ∃ d, putFiledata env msg = .ok d ∧ env.writeFileThrows d = none) :
    (execs (onInput env node msg)).length = 1 ∧
    (truthy (jsOr r.err r.error) = true →
      sends (onInput env node msg) = [] ∧
      errors (onInput env node msg) = [(jsOr r.err r.error, msg)] ∧
      uncaughts (onInput env node msg) = []) ∧
    (truthy (jsOr r.err r.error) = false →
      (sends (onInput env node msg)).length = 1 ∧
      errors (onInput env node msg) = [] ∧
      uncaughts (onInput env node msg) = []) := by
  obtain ⟨ev, hev⟩ := computeEvent_ok_of_payload node msg hu hn
  have hwd := computeEvent_workdir hev
  have hpath : node.operation ≠ .str "raw" → ∀ (e : Event) (x : JSVal),
      e.workdir = ev.workdir → ∃ q, remotePath env e x = .ok q := by
    intro hnr e x hex
    obtain ⟨P, hP⟩ := hhelper hnr
    exact ⟨strPlus P x, by simp [remotePath, hex, hwd, hP]⟩
  have hcases : truthy (jsOr r.err r.error) = true ∨ truthy (jsOr r.err r.error) = false := by
    cases truthy (jsOr r.err r.error) <;> simp
  rcases hop with h | h | h | h | h
  · obtain ⟨q, hq⟩ := hpath (by simp [h]) ev ev.filename rfl
    rcases hcases with ht | ht
    · simp [onInput, hev, switchOperation, h, opGet, hq, hs, onResponse_failed _ _ _ ht,
        execs, sends, errors, uncaughts, ht]
    · simp [onInput, hev, switchOperation, h, opGet, hq, hs, onResponse_passed _ _ _ ht,
        execs, sends, errors, uncaughts, ht]
  · obtain ⟨ev1, hf, hw1⟩ := putFilename_ok env node ev (computeEvent_filename hev)
    obtain ⟨q, hq⟩ := hpath (by simp [h]) ev1 ev1.filename hw1
    obtain ⟨⟨path, htmp⟩, hw, d, hd, hthrow⟩ := hput h
    rcases hcases with ht | ht
    · simp [onInput, hev, switchOperation, h, opPut, hf, hq, hd, putTmpCallback, htmp, hthrow,
        putWriteCallback, hw, hs, putExecCallback, onResponse_failed _ _ _ ht,
        execs, sends, errors, uncaughts, ht]
    · simp [onInput, hev, switchOperation, h, opPut, hf, hq, hd, putTmpCallback, htmp, hthrow,
        putWriteCallback, hw, hs, putExecCallback, onResponse_passed _ _ _ ht,
        execs, sends, errors, uncaughts, ht]
  · obtain ⟨q, hq⟩ := hpath (by simp [h]) ev ev.filename rfl
    rcases hcases with ht | ht
    · simp [onInput, hev, switchOperation, h, opDelete, hq, hs, onResponse_failed _ _ _ ht,
        execs, sends, errors, uncaughts, ht]
    · simp [onInput, hev, switchOperation, h, opDelete, hq, hs, onResponse_passed _ _ _ ht,
        execs, sends, errors, uncaughts, ht]
  · obtain ⟨q, hq⟩ := hpath (by simp [h]) ev ev.filename rfl
    obtain ⟨q2, hq2⟩ := hpath (by simp [h]) ev ev.targetFilename rfl
    rcases hcases with ht | ht
    · simp [onInput, hev, switchOperation, h, opMove, hq, hq2, hs,
        onResponse_failed _ _ _ ht, execs, sends, errors, uncaughts, ht]
    · simp [onInput, hev, switchOperation, h, opMove, hq, hq2, hs,
        onResponse_passed _ _ _ ht, execs, sends, errors, uncaughts, ht]
  · rcases hcases with ht | ht
    · simp [onInput, hev, switchOperation, h, opRaw, hs, onResponse_failed _ _ _ ht,
        execs, sends, errors, uncaughts, ht]
    · simp [onInput, hev, switchOperation, h, opRaw, hs, onResponse_passed _ _ _ ht,
        execs, sends, errors, uncaughts, ht]

/-- C2, at the samples: a `get` of "missing.txt" answered with an application
error sends nothing and reports one error signal with the error message and the
trigger; so do a `delete`, a `put` and a `raw` answered with that error; a `move`
and a `put` answered without error send one message and report nothing. -/
theorem exec_response_uniform_witness :
    (sends (onInput (sampleEnv failedResponse) (sampleNode "get") missingMsg) = [] ∧
      errors (onInput (sampleEnv failedResponse) (sampleNode "get") missingMsg) =
        [(.str "Access failed: 550 missing.txt", missingMsg)] ∧
      uncaughts (onInput (sampleEnv failedResponse) (sampleNode "get") missingMsg) = []) ∧
    (sends (onInput (sampleEnv failedResponse) (sampleNode "delete") missingMsg) = [] ∧
      errors (onInput (sampleEnv failedResponse) (sampleNode "delete") missingMsg) =
        [(.str "Access failed: 550 missing.txt", missingMsg)] ∧
      uncaughts (onInput (sampleEnv failedResponse) (sampleNode "delete") missingMsg) = []) ∧
    (sends (onInput (sampleEnv failedResponse) (sampleNode "put") namedPutMsg) = [] ∧
      errors (onInput (sampleEnv failedResponse) (sampleNode "put") namedPutMsg) =
        [(.str "Access failed: 550 missing.txt", namedPutMsg)] ∧
      uncaughts (onInput (sampleEnv failedResponse) (sampleNode "put") namedPutMsg) = []) ∧
    (sends (onInput (sampleEnv failedResponse) (sampleNode "raw") rawMsg) = [] ∧
      errors (onInput (sampleEnv failedResponse) (sampleNode "raw") rawMsg) =
        [(.str "Access failed: 550 missing.txt", rawMsg)] ∧
      uncaughts (onInput (sampleEnv failedResponse) (sampleNode "raw") rawMsg) = []) ∧
    ((sends (onInput (sampleEnv (okResponse "")) (sampleNode "move") moveMsg)).length = 1 ∧
      errors (onInput (sampleEnv (okResponse "")) (sampleNode "move") moveMsg) = [] ∧
      uncaughts (onInput (sampleEnv (okResponse "")) (sampleNode "move") moveMsg) = []) ∧
    ((sends (onInput (sampleEnv (okResponse "")) (sampleNode "put") namedPutMsg)).length = 1 ∧
      errors (onInput (sampleEnv (okResponse "")) (sampleNode "put") namedPutMsg) = [] ∧
      uncaughts (onInput (sampleEnv (okResponse "")) (sampleNode "put") namedPutMsg) = []) :=
  ⟨(exec_response_uniform (sampleEnv failedResponse) (sampleNode "get") missingMsg
      failedResponse (Or.inl rfl) (by decide) (by decide) (fun _ => ⟨_, rfl⟩) rfl
      (fun h => absurd h (by decide))).2.1 (by decide),
   (exec_response_uniform (sampleEnv failedResponse) (sampleNode "delete") missingMsg
      failedResponse (Or.inr (Or.inr (Or.inl rfl))) (by decide) (by decide)
      (fun _ => ⟨_, rfl⟩) rfl (fun h => absurd h (by decide))).2.1 (by decide),
   (exec_response_uniform (sampleEnv failedResponse) (sampleNode "put") namedPutMsg
      failedResponse (Or.inr (Or.inl rfl)) (by decide) (by decide) (fun _ => ⟨_, rfl⟩) rfl
      (fun _ => ⟨⟨_, rfl⟩, rfl, .str "x", rfl, rfl⟩)).2.1 (by decide),
   (exec_response_uniform (sampleEnv failedResponse) (sampleNode "raw") rawMsg
      failedResponse (Or.inr (Or.inr (Or.inr (Or.inr rfl)))) (by decide) (by decide)
      (fun _ => ⟨_, rfl⟩) rfl (fun h => absurd h (by decide))).2.1 (by decide),
   (exec_response_uniform (sampleEnv (okResponse "")) (sampleNode "move") moveMsg
      (okResponse "") (Or.inr (Or.inr (Or.inr (Or.inl rfl)))) (by decide) (by decide)
      (fun _ => ⟨_, rfl⟩) rfl (fun h => absurd h (by decide))).2.2 (by decide),
   (exec_response_uniform (sampleEnv (okResponse "")) (sampleNode "put") namedPutMsg
      (okResponse "") (Or.inr (Or.inl rfl)) (by decide) (by decide) (fun _ => ⟨_, rfl⟩) rfl
      (fun _ => ⟨⟨_, rfl⟩, rfl, .str "x", rfl, rfl⟩)).2.2 (by decide)⟩

/-! ### Cleanup of the temp file (lines 154-181) -/

/-- In a put that called `tmp.file` and was handed a temp file, whose call of
`fs.writeFile` did not throw, the cleanup is called exactly once when the local
write fails, and when it succeeds and the session is then built and answers. -/
theorem put_cleanup_once (env : Env) (node : CommandNode) (msg : Msg) (path : String)
    (hop : node.operation = .str "put")
    (hcall : Effect.tmpFile ∈ onInput env node msg)
    (hacq : env.tmpFile = .ok path)
    (htake : ∀ d, env.writeFileThrows d = none)
    (hout : env.writeFile ≠ none ∨ ∃ r, newFTPS env node = .ok r) :
    cleanups (onInput env node msg) = 1 := by
  unfold onInput at hcall ⊢
  cases hev : computeEvent node msg with
  | error e => simp [hev, catchBlock] at hcall
  | ok ev =>
    simp only [hev, switchOperation, hop, opPut] at hcall ⊢
    simp at hcall ⊢
    cases hf : putFilename env node ev with
    | error e => simp [hf, catchBlock] at hcall
    | ok ev1 =>
      cases hp : remotePath env ev1 ev1.filename with
      | error e => simp [hf, hp, catchBlock] at hcall
      | ok remote =>
        cases hd : putFiledata env msg with
        | error e => simp [hf, hp, hd, catchBlock] at hcall
        | ok fd =>
          cases hw : env.writeFile with
          | some e => simp [hp, hd, putTmpCallback, hacq, htake, putWriteCallback, hw, cleanups]
          | none =>
            rcases hout with hne | ⟨r, hs⟩
            · exact absurd hw hne
            · by_cases ht : truthy (jsOr r.err r.error) = true
              · simp [hp, hd, putTmpCallback, hacq, htake, putWriteCallback, hw, hs,
                  putExecCallback, onResponse_failed _ _ _ ht, cleanups]
              · have ht2 : truthy (jsOr r.err r.error) = false := by simpa using ht
                simp [hp, hd, putTmpCallback, hacq, htake, putWriteCallback, hw, hs,
                  putExecCallback, onResponse_passed _ _ _ ht2, cleanups]

/-- C7, at the failing input: a put of "f.txt" with data "x" on a node whose
server reference resolves to no configuration node. The temp file is created and
written; then `new FTPS(node.serverConfig.options)` throws inside the callback of
`fs.writeFile`, before the only cleanup call left on that path: the cleanup is
called zero times and the exception reaches the host. So it is when
`fs.writeFile` throws at once on data it does not take, here the number 42. The
claim says exactly once, never zero times. -/
theorem put_session_throw_skips_cleanup :
    onInput (sampleEnv (okResponse "")) orphanPutNode namedPutMsg =
      [.status .active, .tmpFile, .writeFile "/tmp/tmp-1" (.str "x"),
       .uncaught (typeError "options")] ∧
    cleanups (onInput (sampleEnv (okResponse "")) orphanPutNode namedPutMsg) = 0 ∧
    onInput (sampleEnv (okResponse "")) (sampleNode "put") numberPutMsg =
      [.status .active, .tmpFile,
       .uncaught (.error "TypeError: The data argument must be of type string")] ∧
    cleanups (onInput (sampleEnv (okResponse "")) (sampleNode "put") numberPutMsg) = 0 := by
  decide

/-! ### `move` (lines 201-220) -/

theorem jsOr_str_empty (t : String) : jsOr (.str t) (.str "") = .str t := by
  by_cases h : t = ""
  · subst h; rfl
  · exact jsOr_truthy _ (by simp [truthy, h])

/-- C5, refuted as stated: the trigger that carries the filenames "a.txt" and
"b.txt" beside the workdir "/d", with no payload. Reading `msg.payload.filename`
throws before the `switch`: the session receives no rename, nothing is sent, and
the `TypeError` is reported as the one error signal. -/
theorem move_flat_trigger_renames_nothing :
    onInput (sampleEnv (okResponse "")) (sampleNode "move") flatMoveMsg =
      [.nodeError (typeError "filename") flatMoveMsg, .status .blank] ∧
    execs (onInput (sampleEnv (okResponse "")) (sampleNode "move") flatMoveMsg) = [] ∧
    sends (onInput (sampleEnv (okResponse "")) (sampleNode "move") flatMoveMsg) = [] := by
  decide

/-- C5, amended: a move trigger with workdir `W` on the message and filename
`F` and target filename `T` in its payload, none of the three configured on the
node, with `P` the value of `utils.addTrailingSlash(W)` and an error-free
response of the session: the session executes exactly one rename, from `P + F`
to `P + T`, and the one outbound message is the trigger with `workdir = W` and
`payload = {filename: T, filepath: P + T}`. -/
theorem move_renames_in_workdir (env : Env) (node : CommandNode) (msg : Msg)
    (r : Response) (W F T P : String)
    (hop : node.operation = .str "move")
    (hcw : truthy node.workdir = false) (hcf : truthy node.filename = false)
    (hct : truthy node.targetFilename = false)
    (hW : msg.workdir = .str W)
    (hF : getProp msg.payload "filename" = .ok (.str F))
    (hT : getProp msg.payload "targetFilename" = .ok (.str T))
    (hP : env.addTrailingSlash (.str W) = .ok P)
    (hs : newFTPS env node = .ok r)
    (herr : truthy r.err = false) (hflag : truthy r.error = false) :
    execs (onInput env node msg) = [[.mv (P ++ F) (P ++ T)]] ∧
    sends (onInput env node msg) =
      [{ msg with
          workdir := .str W
          payload := .obj [("filename", .str T), ("filepath", .str (P ++ T))] }] ∧
    errors (onInput env node msg) = [] := by
  have ht := truthy_response_passed herr hflag
  have hev : computeEvent node msg =
      .ok { workdir := .str W, filename := .str F, targetFilename := .str T,
            savedir := jsOr (jsOr node.savedir msg.savedir) (.str ""),
            localFilename := jsOr (jsOr node.localFilename msg.localFilename) (.str "") } := by
    simp [computeEvent, orPayloadProp, hcf, hct, hF, hT, jsOr_falsy _ hcw, hW, jsOr_str_empty]
  have hp1 : ∀ ev : Event, ev.workdir = .str W → remotePath env ev (.str F) = .ok (P ++ F) := by
    intro ev h
    simp [remotePath, h, hP, strPlus, jsToString]
  have hp2 : ∀ ev : Event, ev.workdir = .str W → remotePath env ev (.str T) = .ok (P ++ T) := by
    intro ev h
    simp [remotePath, h, hP, strPlus, jsToString]
  simp [onInput, hev, switchOperation, hop, opMove, hp1, hp2, hs,
    onResponse_passed _ _ _ ht, execs, sends, errors]

/-- C5, amended, at the sample, with the path resolver modelled from the spec:
workdir "/d" on the message, filename "a.txt" and target filename "b.txt" in the
payload. -/
theorem move_renames_in_workdir_witness :
    execs (onInput (sampleEnv (okResponse "")) (sampleNode "move") moveMsg) =
      [[.mv "/d/a.txt" "/d/b.txt"]] ∧
    sends (onInput (sampleEnv (okResponse "")) (sampleNode "move") moveMsg) =
      [{ workdir := .str "/d",
         payload := .obj [("filename", .str "b.txt"), ("filepath", .str "/d/b.txt")] }] ∧
    errors (onInput (sampleEnv (okResponse "")) (sampleNode "move") moveMsg) = [] :=
  move_renames_in_workdir (sampleEnv (okResponse "")) (sampleNode "move") moveMsg
    (okResponse "") "/d" "a.txt" "b.txt" "/d/" rfl rfl rfl rfl rfl rfl rfl rfl rfl rfl rfl

/-! ### `list` (lines 100-117) -/

/-- C6, refuted as stated: the trigger that consists of the workdir "/data"
only. Reading `msg.payload.filename` throws before the `switch`: no session is
asked anything, nothing is sent, and the `TypeError` is reported as the one
error signal. -/
theorem list_workdir_only_sends_nothing :
    onInput (sampleEnv (okResponse "l1\nl2")) (sampleNode "list") { workdir := .str "/data" } =
      [.nodeError (typeError "filename") { workdir := .str "/data" }, .status .blank] ∧
    execs (onInput (sampleEnv (okResponse "l1\nl2")) (sampleNode "list")
      { workdir := .str "/data" }) = [] ∧
    sends (onInput (sampleEnv (okResponse "l1\nl2")) (sampleNode "list")
      { workdir := .str "/data" }) = [] := by
  decide

/-- C6, amended: a list trigger with workdir `W`, no workdir configured on the
node, and a payload other than `undefined` and `null`, answered by an error-free
response: the session is asked to change directory to `W` and then to list, and
exactly one message is sent, the trigger with `workdir = W` and as payload the
entries the parser makes of the listing data. -/
theorem list_sends_parsed_entries (env : Env) (node : CommandNode) (msg : Msg)
    (r : Response) (W : String)
    (hop : node.operation = .str "list")
    (hcfg : truthy node.workdir = false)
    (hW : msg.workdir = .str W)
    (hu : msg.payload ≠ .prim .undefined) (hn : msg.payload ≠ .prim .null)
    (hs : newFTPS env node = .ok r)
    (herr : truthy r.err = false) (hflag : truthy r.error = false) :
    execs (onInput env node msg) = [[.cd (.str W), .ls]] ∧
    sends (onInput env node msg) =
      [{ msg with workdir := .str W, payload := env.parseEntries r.data }] ∧
    errors (onInput env node msg) = [] := by
  have ht := truthy_response_passed herr hflag
  obtain ⟨ev, hev⟩ := computeEvent_ok_of_payload node msg hu hn
  have hwd : ev.workdir = .str W := by
    rw [computeEvent_workdir hev, jsOr_falsy _ hcfg, hW]
    by_cases hem : W = ""
    · subst hem; rfl
    · have : truthy (.str W) = true := by simp [truthy, hem]
      exact jsOr_truthy _ this
  simp [onInput, hev, switchOperation, hop, opList, hs, onResponse_passed _ _ _ ht,
    execs, sends, errors, hwd]

/-- C6, amended, at the sample: workdir "/data", an empty payload object, and a
response of two listing lines; the outbound payload has the two parsed entries in
the order of the lines. -/
theorem list_sends_parsed_entries_witness :
    execs (onInput (sampleEnv (okResponse "l1\nl2")) (sampleNode "list") listMsg) =
      [[.cd (.str "/data"), .ls]] ∧
    sends (onInput (sampleEnv (okResponse "l1\nl2")) (sampleNode "list") listMsg) =
      [{ workdir := .str "/data",
         payload := .objs [[("name", .str "l1")], [("name", .str "l2")]] }] ∧
    errors (onInput (sampleEnv (okResponse "l1\nl2")) (sampleNode "list") listMsg) = [] :=
  list_sends_parsed_entries (sampleEnv (okResponse "l1\nl2")) (sampleNode "list") listMsg
    (okResponse "l1\nl2") "/data" rfl rfl rfl (by decide) (by decide) rfl rfl rfl

/-! ### `raw` (lines 221-238) -/

/-- C9: a raw trigger on a node whose session can be built. A payload that is
the array of command strings `cs` queues exactly one `raw` command for each
string of `cs`, in the order of `cs`, the string unchanged; a payload that is
the single string `c` queues exactly the one command `c`; and on an error-free
response the one outbound message is the trigger with the response data as
payload. -/
theorem raw_commands_verbatim (env : Env) (node : CommandNode) (msg : Msg) (r : Response)
    (hop : node.operation = .str "raw")
    (hs : newFTPS env node = .ok r) :
    (∀ cs : List String, msg.payload = .arr (cs.map JSVal.str) →
      execs (onInput env node msg) = [cs.map (fun c => Cmd.raw (.prim (.str c)))]) ∧
    (∀ c : String, msg.payload = .prim (.str c) →
      execs (onInput env node msg) = [[Cmd.raw (.prim (.str c))]]) ∧
    (msg.payload ≠ .prim .undefined → msg.payload ≠ .prim .null →
      truthy r.err = false → truthy r.error = false →
      sends (onInput env node msg) = [{ msg with payload := .prim r.data }] ∧
      errors (onInput env node msg) = []) := by
  have hrun : ∀ ev, computeEvent node msg = .ok ev →
      onInput env node msg =
        .status .active :: .exec (rawCommands msg.payload) ::
          onResponse msg r [.send { msg with payload := .prim r.data }, .status .blank] := by
    intro ev hev
    simp [onInput, hev, switchOperation, hop, opRaw, hs]
  have hex : ∀ ev, computeEvent node msg = .ok ev →
      execs (onInput env node msg) = [rawCommands msg.payload] := by
    intro ev hev
    rw [hrun ev hev]
    by_cases ht : truthy (jsOr r.err r.error) = true
    · simp [onResponse_failed _ _ _ ht, execs]
    · have ht2 : truthy (jsOr r.err r.error) = false := by simpa using ht
      simp [onResponse_passed _ _ _ ht2, execs]
  refine ⟨?_, ?_, ?_⟩
  · intro cs hp
    obtain ⟨ev, hev⟩ := computeEvent_ok_of_payload node msg (by simp [hp]) (by simp [hp])
    rw [hex ev hev, hp]
    simp [rawCommands, List.map_map, Function.comp_def]
  · intro c hp
    obtain ⟨ev, hev⟩ := computeEvent_ok_of_payload node msg (by simp [hp]) (by simp [hp])
    rw [hex ev hev, hp]
    rfl
  · intro hu hn herr hflag
    obtain ⟨ev, hev⟩ := computeEvent_ok_of_payload node msg hu hn
    rw [hrun ev hev]
    simp [onResponse_passed _ _ _ (truthy_response_passed herr hflag), sends, errors]

/-- C9, at the samples: the commands "cd /in" and "ls" as an array, the command
"pwd" as a single string, and the data "out" of an error-free response. -/
theorem raw_commands_verbatim_witness :
    execs (onInput (sampleEnv (okResponse "out")) (sampleNode "raw")
      { payload := .arr [.str "cd /in", .str "ls"] }) =
      [[.raw (.prim (.str "cd /in")), .raw (.prim (.str "ls"))]] ∧
    sends (onInput (sampleEnv (okResponse "out")) (sampleNode "raw")
      { payload := .arr [.str "cd /in", .str "ls"] }) = [{ payload := .prim (.str "out") }] ∧
    execs (onInput (sampleEnv (okResponse "out")) (sampleNode "raw")
      { payload := .prim (.str "pwd") }) = [[.raw (.prim (.str "pwd"))]] :=
  ⟨(raw_commands_verbatim (sampleEnv (okResponse "out")) (sampleNode "raw")
      { payload := .arr [.str "cd /in", .str "ls"] } (okResponse "out") rfl rfl).1
      ["cd /in", "ls"] rfl,
   ((raw_commands_verbatim (sampleEnv (okResponse "out")) (sampleNode "raw")
      { payload := .arr [.str "cd /in", .str "ls"] } (okResponse "out") rfl rfl).2.2
      (by decide) (by decide) rfl rfl).1,
   (raw_commands_verbatim (sampleEnv (okResponse "out")) (sampleNode "raw")
      { payload := .prim (.str "pwd") } (okResponse "out") rfl rfl).2.1 "pwd" rfl⟩

/-! ### Path resolution, on the resolver modelled from the spec -/

/-- C4: with `T` the non-empty part of the workdir in front of an optional final
separator, `resolve` puts exactly one separator between `T` and the filename `F`,
both for the workdir `T` and for the workdir `T/`; a workdir `S/` gets no
separator added, whatever `S` is; an empty workdir resolves to `F`; and the three
sample values are as stated. -/
theorem resolve_one_separator (T F : String) (hne : T ≠ "")
    (hns : T.data.getLast? ≠ some '/') :
    resolve T F = T ++ "/" ++ F ∧ resolve (T ++ "/") F = T ++ "/" ++ F ∧
    (∀ S : String, resolve (S ++ "/") F = S ++ "/" ++ F) ∧
    resolve "" F = F ∧
    resolve "" "a" = "a" ∧ resolve "/x/" "a" = "/x/a" ∧ resolve "/x" "a" = "/x/a" := by
  refine ⟨?_, ?_, ?_, ?_, by decide, by decide, by decide⟩
  · unfold resolve addTrailingSlash
    cases h : T.data.getLast? with
    | none =>
      exfalso
      apply hne
      rw [List.getLast?_eq_none_iff] at h
      exact String.ext h
    | some c =>
      have hc : c ≠ '/' := fun e => hns (by rw [h, e])
      simp [hc]
  · unfold resolve addTrailingSlash
    simp [String.data_append]
  · intro S
    unfold resolve addTrailingSlash
    simp [String.data_append]
  · unfold resolve addTrailingSlash
    simp

/-- C4, at the sample: the workdir part "/srv/in" and the filename "a.txt". -/
theorem resolve_one_separator_witness :
    resolve "/srv/in" "a.txt" = "/srv/in/a.txt" ∧ resolve "/srv/in/" "a.txt" = "/srv/in/a.txt" :=
  ⟨(resolve_one_separator "/srv/in" "a.txt" (by decide) (by decide)).1,
   (resolve_one_separator "/srv/in" "a.txt" (by decide) (by decide)).2.1⟩

end Lftp
